import Mathlib

/-!
Verification of the transaction/portfolio pipeline of the FPTI finance
dashboard (src/Finance_dashboard/app.py), shallowly embedded in Lean 4.

Modelling conventions, each justified against the pandas source:
* A DataFrame is a record of column-presence flags plus a list of rows.
  In pandas, column existence is a property of the table, not of a row,
  so presence flags live on the table; a row field whose flag is `false`
  is junk and is never read before being overwritten (checked against
  the source: every branch that reads a column first tests its flag or
  writes the column).
* A raw `Date` cell is `Option Date`: `some d` means `pd.to_datetime`
  would succeed and yield `d` (to_datetime is the identity on already
  converted cells); `none` means it would raise.  `pd.to_datetime` is
  called with its default `errors = raise`, so one unparseable cell
  makes the whole call raise; raising is modelled by `Except.error`.
* Amounts, share counts and prices are `Rat` (the source holds numeric
  cells; non-numeric cells are out of scope of every claim).
* The `Description` column is modelled as always present, as in the
  spec input schema; no claim concerns a missing Description column.
* Column-wise pandas assignments (`df[c] = ...`, `df.loc[mask, c] = v`)
  are elementwise, so they are modelled as a single per-row function.
-/

structure Date where
  year : Nat
  month : Nat
  day : Nat
deriving DecidableEq

/-- A year-month key, as produced by `df.Date.dt.to_period M`. -/
abbrev Month := Nat × Nat

/-- `monthKey` models `dt.to_period('M')` on a parsed date. -/
def monthKey : Option Date → Month
  | some d => (d.year, d.month)
  | none => (0, 0)

/-- One row of the transactions DataFrame.  `ty` is the `Type` cell,
`signed` the `Signed_Amount` cell; each is meaningful only when the
table-level presence flag is set. -/
structure Row where
  date : Option Date
  description : String
  amount : Rat
  ty : String
  category : String
  month : Month
  signed : Rat
deriving DecidableEq

/-- The transactions DataFrame: column-presence flags plus rows. -/
structure Table where
  hasDate : Bool
  hasAmount : Bool
  hasType : Bool
  hasCategory : Bool
  hasMonth : Bool
  hasSigned : Bool
  rows : List Row
deriving DecidableEq

/-- `pd.DataFrame()`: the empty frame returned on a schema error. -/
def emptyTable : Table :=
  { hasDate := false, hasAmount := false, hasType := false,
    hasCategory := false, hasMonth := false, hasSigned := false, rows := [] }

/-- Case-insensitive character equality test support: lower-case a string
to a list of characters, as `str.contains(..., case=False)` does. -/
def lcChars (s : String) : List Char := s.data.map Char.toLower

/-- `isPrefixL p t`: `p` is a prefix of `t` (over characters). -/
def isPrefixL : List Char → List Char → Bool
  | [], _ => true
  | _ :: _, [] => false
  | a :: as, b :: bs => a == b && isPrefixL as bs

/-- `isSubL p t`: `p` occurs as a contiguous sublist of `t`. -/
def isSubL (p : List Char) : List Char → Bool
  | [] => isPrefixL p []
  | b :: bs => isPrefixL p (b :: bs) || isSubL p bs

/-- `containsCI hay pat`: case-insensitive substring test, the meaning of
`hay.str.contains(pat, case=False)` for a single literal keyword. -/
def containsCI (hay pat : String) : Bool := isSubL (lcChars pat) (lcChars hay)

/-- `matchAny desc kws`: the regex alternation `kw1|kw2|...` with
`case=False`, i.e. some keyword occurs case-insensitively in `desc`. -/
def matchAny (desc : String) (kws : List String) : Bool :=
  kws.any (fun k => containsCI desc k)

def foodKws : List String := ["Groceries", "Shopping", "Dinner"]

def billKws : List String := ["Rent", "Bill", "Subscription"]

/-- The `Type` inference of app.py lines 78-79: every row starts as
`Expense`, then rows with `Amount >= 0` are overwritten to `Income`. -/
def inferType (amount : Rat) : String :=
  if 0 ≤ amount then "Income" else "Expense"

/-- The category assignment of app.py lines 84-87, as the sequence of
column overwrites in source order (default, Income, food, bills);
a later matching rule overwrites an earlier one. -/
def assignCategory (ty desc : String) : String :=
  let c := "Other"
  let c := if ty == "Income" then "Income" else c
  let c := if matchAny desc foodKws then "Food & Shopping" else c
  let c := if matchAny desc billKws then "Bills & Utilities" else c
  c

/-- Python exceptions escaping a pipeline function. -/
inductive PyExn where
  | toDatetimeError
deriving DecidableEq

/-- The per-row effect of app.py lines 74-87 (Month derivation, Type
inference when the Type column is absent, `Amount := Amount.abs()`,
category assignment when the Category column is absent).  Each source
statement is a column-wise elementwise assignment, so their composition
is this per-row function. -/
def normRow (hasType hasCategory : Bool) (r : Row) : Row :=
  let r1 := { r with month := monthKey r.date }
  let r2 := if hasType then r1 else { r1 with ty := inferType r1.amount }
  let r3 := { r2 with amount := |r2.amount| }
  if hasCategory then r3 else
    { r3 with category := assignCategory r3.ty r3.description }

/-- Error message of app.py line 72 (quotes around column names elided). -/
def schemaErrMsg : String :=
  "Invalid transaction file. It must contain Date and Amount columns."

/-- The table produced by the normalizer's success path: all derived
columns present, every row rewritten by `normRow`. -/
def normTable (df : Table) : Table :=
  { hasDate := true, hasAmount := true, hasType := true,
    hasCategory := true, hasMonth := true, hasSigned := df.hasSigned,
    rows := df.rows.map (normRow df.hasType df.hasCategory) }

/-- `load_and_preprocess_transactions` (app.py lines 67-89).
Result `.ok (final, ret, err)`:
`final` is the state of the caller's DataFrame after the call (the
function mutates its argument in place and returns it on success; on a
schema error it returns a fresh empty frame, leaving the argument as it
was), `ret` the returned frame and `err` the returned error string
(`""` on success).  `.error e` models an escaping exception: line 74
(`pd.to_datetime`) raises on an unparseable date cell, before any
mutation of the argument. -/
def load_and_preprocess_transactions (df : Table) :
    Except PyExn (Table × Table × String) :=
  if df.hasDate && df.hasAmount then
    if df.rows.all (fun r => r.date.isSome) then
      .ok (normTable df, normTable df, "")
    else
      .error .toDatetimeError
  else
    .ok (df, emptyTable, schemaErrMsg)

/-- Message set by main() (app.py line 153) when
`load_and_preprocess_transactions` raises (exception text elided). -/
def exnWrapMsg : String :=
  "Error loading transactions file: ... Please check the format."

/-- The transactions-upload step of main() (app.py lines 148-153):
calls `load_and_preprocess_transactions` inside try/except; on an
exception only the session error is set and the session DataFrame keeps
its previous value `prev`. -/
def load_transactions_step (prev df : Table) : Table × String :=
  match load_and_preprocess_transactions df with
  | .ok (_, ret, err) => (ret, err)
  | .error _ => (prev, exnWrapMsg)

/-- `Signed_Amount` of one row (app.py line 95). -/
def signedAmount (r : Row) : Rat :=
  if r.ty == "Income" then r.amount else -r.amount

/-- Chronological (lexicographic) order on year-month keys; `groupby`
sorts its group keys ascending in this order. -/
def monthLE (a b : Month) : Prop :=
  a.1 < b.1 ∨ (a.1 = b.1 ∧ a.2 ≤ b.2)

instance : DecidableRel monthLE := fun a b => by
  unfold monthLE; exact inferInstance

instance : IsTrans Month monthLE :=
  ⟨by intro a b c h1 h2; unfold monthLE at *; omega⟩

instance : IsTotal Month monthLE :=
  ⟨by intro a b; unfold monthLE; omega⟩

/-- The ascending list of distinct months of `rows`: the group keys of
`rows.groupby('Month')` (pandas sorts group keys ascending). -/
def monthsSorted (rows : List Row) : List Month :=
  List.insertionSort monthLE ((rows.map (fun r => r.month)).dedup)

/-- Sum of `f` over the rows of `rows` whose month equals `m`. -/
def sumBy (rows : List Row) (f : Row → Rat) (m : Month) : Rat :=
  ((rows.filter (fun r => r.month == m)).map f).sum

/-- `rows.groupby('Month')[col].sum().reset_index()`: one `(month, sum)`
pair per distinct month, months ascending. -/
def groupSum (rows : List Row) (f : Row → Rat) : List (Month × Rat) :=
  (monthsSorted rows).map (fun m => (m, sumBy rows f m))

/-- `astype(str)` on a month Period: `YYYY-MM` with zero-padded month. -/
def monthStr (m : Month) : String :=
  toString m.1 ++ "-" ++ (if m.2 < 10 then "0" else "") ++ toString m.2

/-- The per-row effect of app.py line 95: write the row's
`Signed_Amount` cell. -/
def addSigned (r : Row) : Row := { r with signed := signedAmount r }

/-- `calculate_monthly_cash_flow` (app.py lines 91-102).  The first
component is the state of the caller's DataFrame after the call: line 95
adds the `Signed_Amount` column to the argument in place.  The others
are the returned `monthly_summary` (month rendered as a string by
`astype(str)`), `income_by_month` and `expense_by_month`. -/
def calculate_monthly_cash_flow (df : Table) :
    Table × List (String × Rat) × List (Month × Rat) × List (Month × Rat) :=
  let df' : Table :=
    { df with
      hasSigned := true,
      rows := df.rows.map addSigned }
  let monthly_summary :=
    (groupSum df'.rows (fun r => r.signed)).map (fun p => (monthStr p.1, p.2))
  let income_by_month :=
    groupSum (df'.rows.filter (fun r => r.ty == "Income")) (fun r => r.amount)
  let expense_by_month :=
    groupSum (df'.rows.filter (fun r => r.ty == "Expense")) (fun r => r.amount)
  (df', monthly_summary, income_by_month, expense_by_month)

/-- `mock_get_stock_price` (app.py lines 10-21): fixed dictionary with
`.get(ticker, 0.0)`. -/
def mock_get_stock_price (ticker : String) : Rat :=
  if ticker == "AAPL" then 175.50
  else if ticker == "MSFT" then 325.75
  else if ticker == "GOOGL" then 130.20
  else 0

/-- One row of the portfolio DataFrame: the symbol cell, the quantity
cell, and the two computed cells (meaningful once their flags are set). -/
structure PRow where
  sym : String
  qty : Rat
  price : Rat
  value : Rat
deriving DecidableEq

/-- The portfolio DataFrame.  The symbol cells live under the column
name `Investment` or `Asset`, the quantity cells under `Shares` or
`Quantity`; renaming a column changes a flag, not the cell values. -/
structure PTable where
  hasInvestment : Bool
  hasShares : Bool
  hasAsset : Bool
  hasQuantity : Bool
  hasPrice : Bool
  hasValue : Bool
  rows : List PRow
deriving DecidableEq

def emptyPTable : PTable :=
  { hasInvestment := false, hasShares := false, hasAsset := false,
    hasQuantity := false, hasPrice := false, hasValue := false, rows := [] }

/-- Error message of app.py line 112 (quotes elided). -/
def portfolioErrMsg : String :=
  "Invalid portfolio file. It must contain Investment and Shares columns (or Asset and Quantity)."

/-- App.py lines 114-115: add the price column via
`mock_get_stock_price` and the value column `Shares * price`. -/
def withPriceValue (p : PTable) : PTable :=
  { p with
    hasPrice := true,
    hasValue := true,
    rows := p.rows.map (fun r =>
      let pr := mock_get_stock_price r.sym
      { r with price := pr, value := r.qty * pr }) }

/-- `update_portfolio_value` (app.py lines 104-117): accept the
`Investment`/`Shares` columns, else rename `Asset`/`Quantity` to them,
else fail; then add the price column via `mock_get_stock_price` and the
value column `Shares * price`.  Returns the (mutated) frame and the
error string, `""` on success. -/
def update_portfolio_value (p : PTable) : PTable × String :=
  if p.hasInvestment && p.hasShares then
    (withPriceValue p, "")
  else if p.hasAsset && p.hasQuantity then
    (withPriceValue { p with
       hasInvestment := true, hasShares := true,
       hasAsset := false, hasQuantity := false }, "")
  else
    (emptyPTable, portfolioErrMsg)


/-! ### Concrete frames used as test inputs -/

/-- Convenience constructor for a concrete transaction row. -/
def mkTxn (d : Option Date) (ds : String) (a : Rat) (t : String)
    (m : Month) : Row :=
  { date := d, description := ds, amount := a, ty := t, category := "Other",
    month := m, signed := 0 }

/-- Forget the `Signed_Amount` column of a frame: used to express that
the aggregator changes nothing but that column. -/
def stripSigned (t : Table) : Table :=
  { t with
    hasSigned := false,
    rows := t.rows.map (fun r => { r with signed := 0 }) }

/-- A normalized two-row ledger: one income of 10, one expense of 4. -/
def w1Table : Table :=
  { hasDate := true, hasAmount := true, hasType := true, hasCategory := true,
    hasMonth := true, hasSigned := false,
    rows := [mkTxn (some ⟨2023, 1, 5⟩) "salary" 10 "Income" (2023, 1),
             mkTxn (some ⟨2023, 1, 9⟩) "rent" 4 "Expense" (2023, 1)] }

/-- Raw table without Type and Category columns, one negative amount. -/
def c2wTable : Table :=
  { hasDate := true, hasAmount := true, hasType := false, hasCategory := false,
    hasMonth := false, hasSigned := false,
    rows := [mkTxn (some ⟨2023, 1, 5⟩) "Groceries" (-3) "" (0, 0)] }

/-- Raw table whose single description matches both the food and the
bills keyword sets. -/
def c3Table : Table :=
  { hasDate := true, hasAmount := true, hasType := true, hasCategory := false,
    hasMonth := false, hasSigned := false,
    rows := [mkTxn (some ⟨2023, 1, 5⟩) "Rent or Shopping" 3 "Expense" (0, 0)] }

/-- The normalizer's output on `c3Table`. -/
def c3Out : Table :=
  { hasDate := true, hasAmount := true, hasType := true, hasCategory := true,
    hasMonth := true, hasSigned := false,
    rows := [{ date := some ⟨2023, 1, 5⟩, description := "Rent or Shopping",
               amount := 3, ty := "Expense",
               category := "Bills & Utilities", month := (2023, 1),
               signed := 0 }] }

/-- Raw table fed to the normalizer to obtain `c4wOut`. -/
def c4wIn : Table :=
  { hasDate := true, hasAmount := true, hasType := false, hasCategory := false,
    hasMonth := false, hasSigned := false,
    rows := [mkTxn (some ⟨2023, 1, 5⟩) "Groceries" (-3) "" (0, 0)] }

/-- The normalizer's output on `c4wIn`. -/
def c4wOut : Table :=
  { hasDate := true, hasAmount := true, hasType := true, hasCategory := true,
    hasMonth := true, hasSigned := false,
    rows := [{ date := some ⟨2023, 1, 5⟩, description := "Groceries",
               amount := 3, ty := "Expense", category := "Food & Shopping",
               month := (2023, 1), signed := 0 }] }

/-- Valid schema, but a date cell no date parser accepts. -/
def c5BadTable : Table :=
  { hasDate := true, hasAmount := true, hasType := true, hasCategory := true,
    hasMonth := false, hasSigned := false,
    rows := [mkTxn none "opaque date" 1 "Income" (0, 0)] }

/-- A table with an Amount column but no Date column. -/
def c6wTable : Table :=
  { hasDate := false, hasAmount := true, hasType := true, hasCategory := true,
    hasMonth := false, hasSigned := false,
    rows := [mkTxn (some ⟨2023, 1, 5⟩) "x" 1 "Income" (2023, 1)] }

/-- Transactions dated 2023-03-05, 2023-01-05, 2023-02-05, in that
input order. -/
def c7Table : Table :=
  { hasDate := true, hasAmount := true, hasType := true, hasCategory := true,
    hasMonth := true, hasSigned := false,
    rows := [mkTxn (some ⟨2023, 3, 5⟩) "a" 10 "Income" (2023, 3),
             mkTxn (some ⟨2023, 1, 5⟩) "b" 4 "Expense" (2023, 1),
             mkTxn (some ⟨2023, 2, 5⟩) "c" 6 "Income" (2023, 2)] }

/-- A portfolio holding 10 AAPL shares and 7 shares of a symbol the
price lookup does not know. -/
def c8Table : PTable :=
  { hasInvestment := true, hasShares := true, hasAsset := false,
    hasQuantity := false, hasPrice := false, hasValue := false,
    rows := [{ sym := "AAPL", qty := 10, price := 0, value := 0 },
             { sym := "ZZZ", qty := 7, price := 0, value := 0 }] }

/-- A normalized one-row ledger without a `Signed_Amount` column. -/
def c9Table : Table :=
  { hasDate := true, hasAmount := true, hasType := true, hasCategory := true,
    hasMonth := true, hasSigned := false,
    rows := [mkTxn (some ⟨2023, 1, 5⟩) "salary" 5 "Income" (2023, 1)] }

/-- A row whose Type is neither `Income` nor `Expense`. -/
def c10Row : Row := mkTxn (some ⟨2023, 1, 5⟩) "move" 5 "Transfer" (2023, 1)

/-- A one-row ledger whose transaction is typed `Transfer`. -/
def c10Table : Table :=
  { hasDate := true, hasAmount := true, hasType := true, hasCategory := true,
    hasMonth := true, hasSigned := false, rows := [c10Row] }

/-! ### Row-level facts about the normalizer -/

theorem normRow_date (ht hc : Bool) (r : Row) :
    (normRow ht hc r).date = r.date := by
  cases ht <;> cases hc <;> rfl

theorem normRow_description (ht hc : Bool) (r : Row) :
    (normRow ht hc r).description = r.description := by
  cases ht <;> cases hc <;> rfl

theorem normRow_month (ht hc : Bool) (r : Row) :
    (normRow ht hc r).month = monthKey r.date := by
  cases ht <;> cases hc <;> rfl

theorem normRow_amount (ht hc : Bool) (r : Row) :
    (normRow ht hc r).amount = |r.amount| := by
  cases ht <;> cases hc <;> rfl

theorem normRow_signed (ht hc : Bool) (r : Row) :
    (normRow ht hc r).signed = r.signed := by
  cases ht <;> cases hc <;> rfl

theorem normRow_ty_true (hc : Bool) (r : Row) :
    (normRow true hc r).ty = r.ty := by
  cases hc <;> rfl

theorem normRow_ty_false (hc : Bool) (r : Row) :
    (normRow false hc r).ty = inferType r.amount := by
  cases hc <;> rfl

/-- A row already satisfying the normalizer invariants is a fixed point
of the fully-supplied normalizer pass. -/
theorem normRow_fixed (s : Row) (hm : s.month = monthKey s.date)
    (ha : 0 ≤ s.amount) : normRow true true s = s := by
  unfold normRow
  simp only [if_pos rfl, if_true]
  cases s with
  | mk d ds a t c m sg =>
    simp only at hm ha
    simp [hm.symm, abs_of_nonneg ha]

theorem normRow_idem (ht hc : Bool) (r : Row) :
    normRow true true (normRow ht hc r) = normRow ht hc r := by
  apply normRow_fixed
  · rw [normRow_month, normRow_date]
  · rw [normRow_amount]; exact abs_nonneg _

/-! ### Sums over month groups -/

theorem sum_map_zero {α : Type} (l : List α) :
    (l.map (fun _ => (0 : Rat))).sum = 0 := by
  induction l <;> simp_all

theorem sum_map_add_distrib {α : Type} (l : List α) (f g : α → Rat) :
    (l.map (fun x => f x + g x)).sum = (l.map f).sum + (l.map g).sum := by
  induction l with
  | nil => simp
  | cons a t ih => simp only [List.map_cons, List.sum_cons, ih]; ring

theorem sum_indicator_not_mem (ms : List Month) (x : Month) (c : Rat)
    (hx : x ∉ ms) : (ms.map (fun m => if x == m then c else 0)).sum = 0 := by
  induction ms with
  | nil => simp
  | cons m t ih =>
    have hxm : ¬(x == m) = true := by
      rw [beq_iff_eq]; intro h; exact hx (h ▸ List.mem_cons_self m t)
    simp only [List.map_cons, List.sum_cons, if_neg hxm]
    rw [ih (fun h => hx (List.mem_cons_of_mem _ h))]
    ring

theorem sum_indicator_mem (ms : List Month) (x : Month) (c : Rat)
    (hnd : ms.Nodup) (hx : x ∈ ms) :
    (ms.map (fun m => if x == m then c else 0)).sum = c := by
  induction ms with
  | nil => cases hx
  | cons m t ih =>
    rcases List.mem_cons.mp hx with h | h
    · subst h
      simp only [List.map_cons, List.sum_cons, if_pos (beq_self_eq_true x)]
      rw [sum_indicator_not_mem t x c (List.nodup_cons.mp hnd).1]
      ring
    · have hxm : ¬(x == m) = true := by
        rw [beq_iff_eq]; intro he
        exact (List.nodup_cons.mp hnd).1 (he ▸ h)
      simp only [List.map_cons, List.sum_cons, if_neg hxm]
      rw [ih (List.nodup_cons.mp hnd).2 h]
      ring

theorem sumBy_nil (f : Row → Rat) (m : Month) : sumBy [] f m = 0 := rfl

theorem sumBy_cons (r : Row) (rs : List Row) (f : Row → Rat) (m : Month) :
    sumBy (r :: rs) f m = (if r.month == m then f r else 0) + sumBy rs f m := by
  unfold sumBy
  by_cases h : (r.month == m) = true
  · simp [List.filter_cons, h]
  · simp [List.filter_cons, h]

/-- Summing the per-group sums over a duplicate-free list of months that
covers every row recovers the total sum. -/
theorem sum_over_partition (rows : List Row) (f : Row → Rat)
    (ms : List Month) (hnd : ms.Nodup) (hcov : ∀ r ∈ rows, r.month ∈ ms) :
    (ms.map (sumBy rows f)).sum = (rows.map f).sum := by
  induction rows with
  | nil =>
    have h0 : sumBy [] f = fun _ => (0 : Rat) := funext (fun m => sumBy_nil f m)
    rw [h0, sum_map_zero]; rfl
  | cons r rs ih =>
    have hmap : ms.map (sumBy (r :: rs) f)
        = ms.map (fun m => (if r.month == m then f r else 0) + sumBy rs f m) := by
      have : sumBy (r :: rs) f
          = fun m => (if r.month == m then f r else 0) + sumBy rs f m :=
        funext (sumBy_cons r rs f)
      rw [this]
    rw [hmap, sum_map_add_distrib,
      sum_indicator_mem ms r.month (f r) hnd (hcov r (List.mem_cons_self r rs)),
      ih (fun x hx => hcov x (List.mem_cons_of_mem _ hx))]
    simp

theorem monthsSorted_nodup (rows : List Row) : (monthsSorted rows).Nodup :=
  ((List.perm_insertionSort monthLE _).nodup_iff).mpr
    (List.nodup_dedup _)

theorem monthsSorted_sorted (rows : List Row) :
    List.Sorted monthLE (monthsSorted rows) :=
  List.sorted_insertionSort monthLE _

theorem mem_monthsSorted {rows : List Row} {r : Row} (h : r ∈ rows) :
    r.month ∈ monthsSorted rows := by
  unfold monthsSorted
  rw [List.mem_insertionSort, List.mem_dedup]
  exact List.mem_map_of_mem _ h

/-- The per-month group sums of `groupSum` add up to the plain sum. -/
theorem sum_groupSum (rows : List Row) (f : Row → Rat) :
    ((groupSum rows f).map (fun p => p.2)).sum = (rows.map f).sum := by
  unfold groupSum
  rw [List.map_map]
  exact sum_over_partition rows f (monthsSorted rows)
    (monthsSorted_nodup rows) (fun r hr => mem_monthsSorted hr)

/-! ### Structural facts about the aggregator -/

theorem map_addSigned_signed (rows : List Row) :
    (rows.map addSigned).map (fun r => r.signed) = rows.map signedAmount := by
  rw [List.map_map]; rfl

theorem monthsSorted_map_addSigned (rows : List Row) :
    monthsSorted (rows.map addSigned) = monthsSorted rows := by
  unfold monthsSorted; rw [List.map_map]; rfl

theorem filter_map_addSigned (p : Row → Bool)
    (hp : ∀ r, p (addSigned r) = p r) (rows : List Row) :
    (rows.map addSigned).filter p = (rows.filter p).map addSigned := by
  induction rows with
  | nil => rfl
  | cons r rs ih =>
    simp only [List.map_cons, List.filter_cons, hp]
    by_cases h : p r = true
    · simp [h, ih]
    · simp [h, ih]

theorem cash_flow_table (df : Table) :
    (calculate_monthly_cash_flow df).1
      = { df with hasSigned := true, rows := df.rows.map addSigned } := rfl

theorem cash_flow_summary (df : Table) :
    (calculate_monthly_cash_flow df).2.1
      = (groupSum (df.rows.map addSigned) (fun r => r.signed)).map
          (fun p => (monthStr p.1, p.2)) := rfl

theorem cash_flow_income (df : Table) :
    (calculate_monthly_cash_flow df).2.2.1
      = groupSum ((df.rows.map addSigned).filter (fun r => r.ty == "Income"))
          (fun r => r.amount) := rfl

theorem cash_flow_expense (df : Table) :
    (calculate_monthly_cash_flow df).2.2.2
      = groupSum ((df.rows.map addSigned).filter (fun r => r.ty == "Expense"))
          (fun r => r.amount) := rfl

/-- Splitting the signed-amount sum by transaction type, when every
type is `Income` or `Expense`. -/
theorem sum_signed_split (l : List Row)
    (h : ∀ r ∈ l, r.ty = "Income" ∨ r.ty = "Expense") :
    (l.map signedAmount).sum
      = ((l.filter (fun r => r.ty == "Income")).map (fun r => r.amount)).sum
        - ((l.filter (fun r => r.ty == "Expense")).map (fun r => r.amount)).sum := by
  induction l with
  | nil => simp
  | cons r rs ih =>
    have hr := h r (List.mem_cons_self r rs)
    have hrs := ih (fun x hx => h x (List.mem_cons_of_mem _ hx))
    rcases hr with hI | hE
    · have hb : (r.ty == "Income") = true := beq_iff_eq.mpr hI
      have hb2 : (r.ty == "Expense") = false := by
        rw [hI]; decide
      simp only [List.map_cons, List.sum_cons, List.filter_cons, hb, hb2,
        if_true, if_false, signedAmount, Bool.false_eq_true]
      rw [hrs]
      ring
    · have hb : (r.ty == "Income") = false := by
        rw [hE]; decide
      have hb2 : (r.ty == "Expense") = true := beq_iff_eq.mpr hE
      simp only [List.map_cons, List.sum_cons, List.filter_cons, hb, hb2,
        if_true, if_false, signedAmount, Bool.false_eq_true]
      rw [hrs]
      ring

/-! ### Claim theorems -/

/-- C1: For every transaction sequence (each row typed `Income` or
`Expense`, the Transaction data-model invariant), the sum of signed
amounts equals the sum of the Income amounts minus the sum of the
Expense amounts, and also equals the sum of `net_flow` over the
aggregator's per-month summaries. -/
theorem c1_signed_sum_conservation (df : Table)
    (h : ∀ r ∈ df.rows, r.ty = "Income" ∨ r.ty = "Expense") :
    (df.rows.map signedAmount).sum
      = ((df.rows.filter (fun r => r.ty == "Income")).map
          (fun r => r.amount)).sum
        - ((df.rows.filter (fun r => r.ty == "Expense")).map
            (fun r => r.amount)).sum
    ∧ (df.rows.map signedAmount).sum
      = (((calculate_monthly_cash_flow df).2.1).map (fun p => p.2)).sum := by
  refine ⟨sum_signed_split df.rows h, ?_⟩
  rw [cash_flow_summary, List.map_map]
  have hcomp :
      ((fun p : String × Rat => p.2) ∘ fun p : Month × Rat => (monthStr p.1, p.2))
        = fun p : Month × Rat => p.2 := rfl
  rw [hcomp, sum_groupSum, map_addSigned_signed]

/-- Closed instance of C1 on a concrete two-row ledger. -/
theorem c1_witness :
    (w1Table.rows.map signedAmount).sum
      = ((w1Table.rows.filter (fun r => r.ty == "Income")).map
          (fun r => r.amount)).sum
        - ((w1Table.rows.filter (fun r => r.ty == "Expense")).map
            (fun r => r.amount)).sum
    ∧ (w1Table.rows.map signedAmount).sum
      = (((calculate_monthly_cash_flow w1Table).2.1).map (fun p => p.2)).sum :=
  c1_signed_sum_conservation w1Table (by decide)

/-- C6: For every input table lacking the Date column or the Amount
column, the normalizer returns the schema error together with an empty
frame (never a partial result), and the input frame is left unmodified. -/
theorem c6_schema_error (df : Table)
    (h : df.hasDate = false ∨ df.hasAmount = false) :
    load_and_preprocess_transactions df = .ok (df, emptyTable, schemaErrMsg) := by
  unfold load_and_preprocess_transactions
  have hc : (df.hasDate && df.hasAmount) = false := by
    rcases h with h | h <;> simp [h]
  rw [hc]
  simp

/-- Closed instance of C6 on a table lacking the Date column. -/
theorem c6_witness :
    load_and_preprocess_transactions c6wTable
      = .ok (c6wTable, emptyTable, schemaErrMsg) :=
  c6_schema_error c6wTable (Or.inl rfl)

/-- C9 refutation: the aggregator does not leave its input table
unchanged; on a frame without a `Signed_Amount` column it adds one
(app.py line 95 assigns a new column to the argument in place). -/
theorem c9_counterexample :
    (calculate_monthly_cash_flow c9Table).1 ≠ c9Table := by decide

/-- C9 (amended): the aggregator changes its input table only by
writing the `Signed_Amount` column; apart from that it is a pure
function with no error condition, and an empty input yields empty
outputs. -/
theorem c9_changes_only_signed :
    (∀ df : Table,
        stripSigned (calculate_monthly_cash_flow df).1 = stripSigned df)
    ∧ (∀ df : Table, df.rows = [] →
        (calculate_monthly_cash_flow df).2.1 = []
          ∧ (calculate_monthly_cash_flow df).2.2.1 = []
          ∧ (calculate_monthly_cash_flow df).2.2.2 = []) := by
  constructor
  · intro df
    rw [cash_flow_table]
    unfold stripSigned
    simp only [List.map_map]
    rfl
  · intro df h
    rw [cash_flow_summary, cash_flow_income, cash_flow_expense, h]
    constructor
    · rfl
    · constructor <;> rfl

/-- Closed instance of the amended C9 on the empty frame and on a
concrete one-row frame. -/
theorem c9_witness :
    stripSigned (calculate_monthly_cash_flow c9Table).1 = stripSigned c9Table
    ∧ ((calculate_monthly_cash_flow emptyTable).2.1 = []
        ∧ (calculate_monthly_cash_flow emptyTable).2.2.1 = []
        ∧ (calculate_monthly_cash_flow emptyTable).2.2.2 = []) :=
  ⟨c9_changes_only_signed.1 c9Table, c9_changes_only_signed.2 emptyTable rfl⟩

/-- C10: in the aggregator every transaction whose Type is not exactly
the string `Income` contributes its negated amount to `net_flow`, yet a
transaction typed neither `Income` nor `Expense` (here `Transfer`) is
excluded from both `income_by_month` and `expense_by_month`, which
filter on the exact strings. -/
theorem c10_non_income_negated :
    (∀ r : Row, r.ty ≠ "Income" → signedAmount r = -r.amount)
    ∧ (calculate_monthly_cash_flow c10Table).2.1 = [("2023-01", -5)]
    ∧ (calculate_monthly_cash_flow c10Table).2.2.1 = []
    ∧ (calculate_monthly_cash_flow c10Table).2.2.2 = [] := by
  refine ⟨?_, ?_, ?_, ?_⟩
  · intro r h
    unfold signedAmount
    rw [if_neg]
    intro hb
    exact h (beq_iff_eq.mp hb)
  · rw [cash_flow_summary]
    have hms : monthsSorted (c10Table.rows.map addSigned) = [(2023, 1)] := by
      decide
    unfold groupSum
    rw [hms]
    have h1 : monthStr (2023, 1) = "2023-01" := by decide
    have h2 : sumBy (c10Table.rows.map addSigned) (fun r => r.signed) (2023, 1)
        = -5 := by
      unfold sumBy
      have hf : (c10Table.rows.map addSigned).filter
          (fun r => r.month == (2023, 1)) = [addSigned c10Row] := by decide
      rw [hf]
      simp +decide [addSigned, signedAmount, c10Row, mkTxn]
    simp [h1, h2]
  · rw [cash_flow_income]
    have hf : (c10Table.rows.map addSigned).filter
        (fun r => r.ty == "Income") = [] := by decide
    rw [hf]
    rfl
  · rw [cash_flow_expense]
    have hf : (c10Table.rows.map addSigned).filter
        (fun r => r.ty == "Expense") = [] := by decide
    rw [hf]
    rfl

/-- Closed instance of C10 at a concrete `Transfer` row. -/
theorem c10_witness : signedAmount c10Row = -c10Row.amount :=
  c10_non_income_negated.1 c10Row (by decide)

/-! ### Further normalizer lemmas -/

theorem normTable_rows_dates (df : Table)
    (h : df.rows.all (fun r => r.date.isSome) = true) :
    (normTable df).rows.all (fun r => r.date.isSome) = true := by
  unfold normTable
  simp only [List.all_map]
  have hcomp : ((fun r => r.date.isSome) ∘ normRow df.hasType df.hasCategory)
      = fun r => r.date.isSome := by
    funext r
    simp only [Function.comp_apply, normRow_date]
  rw [hcomp]
  exact h

theorem normTable_idem (df : Table) : normTable (normTable df) = normTable df := by
  unfold normTable
  simp only [List.map_map]
  congr 1
  have hcomp : (normRow true true ∘ normRow df.hasType df.hasCategory)
      = normRow df.hasType df.hasCategory := by
    funext r
    exact normRow_idem df.hasType df.hasCategory r
  rw [hcomp]

/-- C4: the normalizer is idempotent: whenever it succeeds, running it
again on its own output returns that output unchanged, with an empty
error and no further field mutated. -/
theorem c4_idempotent (df st out : Table)
    (h : load_and_preprocess_transactions df = .ok (st, out, "")) :
    load_and_preprocess_transactions out = .ok (out, out, "") := by
  unfold load_and_preprocess_transactions at h
  by_cases h1 : (df.hasDate && df.hasAmount) = true
  · rw [if_pos h1] at h
    by_cases h2 : df.rows.all (fun r => r.date.isSome) = true
    · rw [if_pos h2] at h
      simp only [Except.ok.injEq, Prod.mk.injEq] at h
      obtain ⟨-, hout, -⟩ := h
      subst hout
      unfold load_and_preprocess_transactions
      have hc : ((normTable df).hasDate && (normTable df).hasAmount) = true := rfl
      rw [if_pos hc, if_pos (normTable_rows_dates df h2), normTable_idem]
    · rw [if_neg h2] at h
      exact absurd h (by simp)
  · rw [if_neg h1] at h
    simp only [Except.ok.injEq, Prod.mk.injEq] at h
    exact absurd h.2.2 (by decide)

/-- Closed instance of C4: the normalizer's output on `c4wIn` is a fixed
point of the normalizer. -/
theorem c4_witness :
    load_and_preprocess_transactions c4wOut = .ok (c4wOut, c4wOut, "") :=
  c4_idempotent c4wIn c4wOut c4wOut rfl

/-- C2: on a table with Date and Amount but no Type column (and
parseable dates, so the normalizer completes), each row's type is
inferred as `Income` iff its original amount is ≥ 0 and `Expense`
otherwise, every amount is then replaced by its absolute value, and —
whether or not a Type column was supplied — every amount in any
normalizer output is non-negative. -/
theorem c2_type_inference_and_abs :
    (∀ df : Table, df.hasDate = true → df.hasAmount = true →
        df.hasType = false →
        df.rows.all (fun r => r.date.isSome) = true →
        load_and_preprocess_transactions df = .ok (normTable df, normTable df, "")
          ∧ (normTable df).rows.map (fun r => r.ty)
              = df.rows.map
                  (fun r => if 0 ≤ r.amount then "Income" else "Expense")
          ∧ (normTable df).rows.map (fun r => r.amount)
              = df.rows.map (fun r => |r.amount|)
          ∧ ∀ r ∈ (normTable df).rows, 0 ≤ r.amount)
    ∧ (∀ df st out : Table, ∀ err : String,
        load_and_preprocess_transactions df = .ok (st, out, err) →
        ∀ r ∈ out.rows, 0 ≤ r.amount) := by
  constructor
  · intro df h1 h2 h3 h4
    refine ⟨?_, ?_, ?_, ?_⟩
    · unfold load_and_preprocess_transactions
      rw [h1, h2]
      simp [h4]
    · unfold normTable
      rw [h3, List.map_map]
      have hcomp : ((fun r => r.ty) ∘ normRow false df.hasCategory)
          = fun r => inferType r.amount := by
        funext r
        exact normRow_ty_false df.hasCategory r
      rw [hcomp]
      rfl
    · unfold normTable
      rw [List.map_map]
      have hcomp : ((fun r => r.amount) ∘ normRow df.hasType df.hasCategory)
          = fun r => |r.amount| := by
        funext r
        exact normRow_amount df.hasType df.hasCategory r
      rw [hcomp]
    · intro r hr
      rcases List.mem_map.mp hr with ⟨r0, -, rfl⟩
      rw [normRow_amount]
      exact abs_nonneg _
  · intro df st out err h r hr
    unfold load_and_preprocess_transactions at h
    by_cases h1 : (df.hasDate && df.hasAmount) = true
    · rw [if_pos h1] at h
      by_cases h2 : df.rows.all (fun r => r.date.isSome) = true
      · rw [if_pos h2] at h
        simp only [Except.ok.injEq, Prod.mk.injEq] at h
        obtain ⟨-, hout, -⟩ := h
        subst hout
        rcases List.mem_map.mp hr with ⟨r0, -, rfl⟩
        rw [normRow_amount]
        exact abs_nonneg _
      · rw [if_neg h2] at h
        exact absurd h (by simp)
    · rw [if_neg h1] at h
      simp only [Except.ok.injEq, Prod.mk.injEq] at h
      obtain ⟨-, hout, -⟩ := h
      subst hout
      cases hr

/-- Closed instance of C2 on a concrete no-Type table with a negative
amount. -/
theorem c2_witness :
    load_and_preprocess_transactions c2wTable
        = .ok (normTable c2wTable, normTable c2wTable, "")
      ∧ (normTable c2wTable).rows.map (fun r => r.ty)
          = c2wTable.rows.map
              (fun r => if 0 ≤ r.amount then "Income" else "Expense")
      ∧ (normTable c2wTable).rows.map (fun r => r.amount)
          = c2wTable.rows.map (fun r => |r.amount|)
      ∧ ∀ r ∈ (normTable c2wTable).rows, 0 ≤ r.amount :=
  c2_type_inference_and_abs.1 c2wTable rfl rfl rfl (by decide)

/-- C3: when the Category column is absent the category rules apply in
the fixed source order (default Other, then Income, then food keywords,
then bills keywords) with the last matching rule winning, which is the
bills-first nested conditional; in particular the description
`Rent or Shopping` resolves to `Bills & Utilities`. -/
theorem c3_category_rule_order :
    (∀ ty desc : String,
        assignCategory ty desc =
          if matchAny desc billKws = true then "Bills & Utilities"
          else if matchAny desc foodKws = true then "Food & Shopping"
          else if ty = "Income" then "Income" else "Other")
    ∧ assignCategory "Expense" "Rent or Shopping" = "Bills & Utilities"
    ∧ load_and_preprocess_transactions c3Table = .ok (c3Out, c3Out, "")
    ∧ c3Out.rows.map (fun r => r.category) = ["Bills & Utilities"] := by
  refine ⟨?_, by decide, by rfl, by decide⟩
  intro ty desc
  unfold assignCategory
  by_cases hb : matchAny desc billKws = true
  · simp [hb]
  · by_cases hf : matchAny desc foodKws = true
    · simp [hb, hf]
    · by_cases hi : ty = "Income"
      · simp [hb, hf, hi]
      · have hbeq : (ty == "Income") = false := beq_eq_false_iff_ne.mpr hi
        simp [hb, hf, hi, hbeq]

/-- C5 refutation: on a schema-valid table with an unparseable date
cell, `load_and_preprocess_transactions` raises (the `pd.to_datetime`
exception escapes the component) instead of returning a
(result, error) pair. -/
theorem c5_counterexample :
    load_and_preprocess_transactions c5BadTable
      = .error PyExn.toDatetimeError := by
  rfl

/-- C5 (amended): the Normalizer returns an explicit (result, error)
pair except that an unparseable date cell makes it raise — it raises
exactly when the schema is valid and some date cell is unparseable —
and the caller's try/except in main() converts that exception into a
reported error message while keeping the previous frame; the Valuator
always returns an explicit (result, error) pair, whose error component
is the schema message or empty. -/
theorem c5_raise_and_catch :
    (∀ df : Table,
        (∃ e, load_and_preprocess_transactions df = .error e)
          ↔ (df.hasDate = true ∧ df.hasAmount = true
              ∧ ∃ r ∈ df.rows, r.date = none))
    ∧ (∀ prev df : Table, ∀ e,
        load_and_preprocess_transactions df = .error e →
        load_transactions_step prev df = (prev, exnWrapMsg))
    ∧ (∀ p : PTable, (update_portfolio_value p).2 = portfolioErrMsg
        ∨ (update_portfolio_value p).2 = "") := by
  refine ⟨?_, ?_, ?_⟩
  · intro df
    unfold load_and_preprocess_transactions
    by_cases h1 : (df.hasDate && df.hasAmount) = true
    · rw [if_pos h1]
      obtain ⟨hd, ha⟩ := Bool.and_eq_true_iff.mp h1
      by_cases h2 : df.rows.all (fun r => r.date.isSome) = true
      · rw [if_pos h2]
        constructor
        · rintro ⟨e, he⟩
          exact absurd he (by simp)
        · rintro ⟨-, -, r, hr, hnone⟩
          have hs := List.all_eq_true.mp h2 r hr
          rw [hnone] at hs
          exact absurd hs (by decide)
      · rw [if_neg h2]
        refine ⟨fun _ => ⟨hd, ha, ?_⟩, fun _ => ⟨.toDatetimeError, rfl⟩⟩
        simp only [List.all_eq_true, not_forall] at h2
        obtain ⟨r, hr, hn⟩ := h2
        exact ⟨r, hr, Option.not_isSome_iff_eq_none.mp hn⟩
    · rw [if_neg h1]
      constructor
      · rintro ⟨e, he⟩
        exact absurd he (by simp)
      · rintro ⟨hd, ha, -⟩
        exact absurd (by rw [hd, ha] ; rfl : (df.hasDate && df.hasAmount) = true) h1
  · intro prev df e h
    unfold load_transactions_step
    rw [h]
  · intro p
    unfold update_portfolio_value
    by_cases h1 : (p.hasInvestment && p.hasShares) = true
    · rw [if_pos h1]
      right
      rfl
    · rw [if_neg h1]
      by_cases h2 : (p.hasAsset && p.hasQuantity) = true
      · rw [if_pos h2]
        right
        rfl
      · rw [if_neg h2]
        left
        rfl

/-- Closed instance of the amended C5: on `c5BadTable` the normalizer
raises and the caller-level step reports the wrapped message while
keeping the previous frame. -/
theorem c5_witness :
    (∃ e, load_and_preprocess_transactions c5BadTable = .error e)
    ∧ load_transactions_step emptyTable c5BadTable = (emptyTable, exnWrapMsg)
    ∧ ((update_portfolio_value c8Table).2 = portfolioErrMsg
        ∨ (update_portfolio_value c8Table).2 = "") :=
  ⟨(c5_raise_and_catch.1 c5BadTable).mpr
      ⟨rfl, rfl, mkTxn none "opaque date" 1 "Income" (0, 0), by decide, rfl⟩,
   c5_raise_and_catch.2.1 emptyTable c5BadTable PyExn.toDatetimeError rfl,
   c5_raise_and_catch.2.2 c8Table⟩

/-- C7: in all three aggregator outputs the months are in ascending
chronological order without duplicates (each output's month list is a
sorted duplicate-free list); on the concrete input dated 2023-03-05,
2023-01-05, 2023-02-05 the summaries come out ordered
2023-01, 2023-02, 2023-03. -/
theorem c7_month_ordering :
    (∀ rows : List Row,
        List.Sorted monthLE (monthsSorted rows)
          ∧ (monthsSorted rows).Nodup)
    ∧ (∀ df : Table,
        ((calculate_monthly_cash_flow df).2.1).map (fun p => p.1)
            = (monthsSorted df.rows).map monthStr
          ∧ ((calculate_monthly_cash_flow df).2.2.1).map (fun p => p.1)
              = monthsSorted (df.rows.filter (fun r => r.ty == "Income"))
          ∧ ((calculate_monthly_cash_flow df).2.2.2).map (fun p => p.1)
              = monthsSorted (df.rows.filter (fun r => r.ty == "Expense")))
    ∧ ((calculate_monthly_cash_flow c7Table).2.1).map (fun p => p.1)
        = ["2023-01", "2023-02", "2023-03"] := by
  refine ⟨?_, ?_, by decide⟩
  · intro rows
    exact ⟨monthsSorted_sorted rows, monthsSorted_nodup rows⟩
  · intro df
    refine ⟨?_, ?_, ?_⟩
    · rw [cash_flow_summary]
      unfold groupSum
      rw [List.map_map, List.map_map, ← monthsSorted_map_addSigned df.rows]
      rfl
    · rw [cash_flow_income]
      unfold groupSum
      rw [List.map_map,
        filter_map_addSigned (fun r => r.ty == "Income") (fun r => rfl),
        monthsSorted_map_addSigned]
      exact List.map_id _
    · rw [cash_flow_expense]
      unfold groupSum
      rw [List.map_map,
        filter_map_addSigned (fun r => r.ty == "Expense") (fun r => rfl),
        monthsSorted_map_addSigned]
      exact List.map_id _

/-- C8: for every holding the Valuator sets
`value = quantity × unit_price` with the unit price taken from the
price lookup; a symbol unknown to the lookup resolves to price 0 rather
than an error; concretely 10 AAPL shares at 175.50 are valued 1755.00
and a holding with an unmapped symbol is valued 0. -/
theorem c8_portfolio_valuation (p : PTable)
    (h : (p.hasInvestment && p.hasShares) = true) :
    ((update_portfolio_value p).1.rows
        = p.rows.map (fun r =>
            { r with price := mock_get_stock_price r.sym,
                     value := r.qty * mock_get_stock_price r.sym })
      ∧ (update_portfolio_value p).2 = "")
    ∧ (∀ s : String, s ≠ "AAPL" → s ≠ "MSFT" → s ≠ "GOOGL" →
        mock_get_stock_price s = 0)
    ∧ (update_portfolio_value c8Table).1.rows.map (fun r => r.value)
        = [1755, 0] := by
  refine ⟨⟨?_, ?_⟩, ?_, ?_⟩
  · unfold update_portfolio_value
    rw [if_pos h]
    rfl
  · unfold update_portfolio_value
    rw [if_pos h]
  · intro s h1 h2 h3
    unfold mock_get_stock_price
    rw [if_neg (fun hb => h1 (beq_iff_eq.mp hb)),
      if_neg (fun hb => h2 (beq_iff_eq.mp hb)),
      if_neg (fun hb => h3 (beq_iff_eq.mp hb))]
  · have e1 : (update_portfolio_value c8Table).1.rows.map (fun r => r.value)
        = [(10 : ℚ) * 175.50, (7 : ℚ) * 0] := rfl
    rw [e1]
    norm_num

/-- Closed instance of C8 on the concrete two-holding portfolio. -/
theorem c8_witness :
    ((update_portfolio_value c8Table).1.rows
        = c8Table.rows.map (fun r =>
            { r with price := mock_get_stock_price r.sym,
                     value := r.qty * mock_get_stock_price r.sym })
      ∧ (update_portfolio_value c8Table).2 = "")
    ∧ mock_get_stock_price "ZZZ" = 0
    ∧ (update_portfolio_value c8Table).1.rows.map (fun r => r.value)
        = [1755, 0] :=
  ⟨(c8_portfolio_valuation c8Table rfl).1,
   (c8_portfolio_valuation c8Table rfl).2.1 "ZZZ"
     (by decide) (by decide) (by decide),
   (c8_portfolio_valuation c8Table rfl).2.2⟩
